import Mathlib

/-!
Shallow embedding of `src/python_mcp_server.py` (a relay that forwards Python
source to an external sandbox service and translates the sandbox response into
a structured result dictionary), together with proofs about the claims on its
specification.

Modelling conventions:
* Bytes are `Nat` values (< 256 where it matters); byte strings are `List Nat`.
* Python `str` is Lean `String`; `str.strip()` is modelled over the ASCII
  whitespace characters (space, tab, LF, CR, VT, FF).
* The filesystem is an explicit association of paths to byte strings plus a
  set of created directories; `tempfile.TemporaryDirectory` contents are not
  persistent (the directory is deleted on exit) and so are modelled as pure
  data flow.
* Python exceptions are `Except String`; the HTTP POST + JSON parse + `.get`
  defaulting of the sandbox call is abstracted as an environment function
  returning either an already-defaulted response record or an exception.
* `datetime.now().strftime(...)` is an environment clock `Nat → String`
  giving the timestamp string produced by the n-th clock query of the call.
-/

/-- Byte strings: lists of natural numbers, meaningful values are < 256. -/
abbrev Bytes := List Nat

/-- The whitespace characters stripped by Python `str.strip()` (ASCII part). -/
def isPySpace (c : Char) : Bool :=
  c = ' ' || c = '\t' || c = '\n' || c = '\r' || c = Char.ofNat 11 || c = Char.ofNat 12

/-- Python `str.strip()`: remove leading and trailing whitespace. -/
def pyStrip (s : String) : String :=
  ⟨((s.data.dropWhile isPySpace).reverse.dropWhile isPySpace).reverse⟩

/-- List version of Python `str.startswith`: does `a` start with `b`. -/
def startsWithL : List Char → List Char → Bool
  | _, [] => true
  | [], _ :: _ => false
  | a :: as, b :: bs => a = b && startsWithL as bs

/-- Python `str.endswith(suffix)`. -/
def pyEndsWith (s suffix : String) : Bool :=
  startsWithL s.data.reverse suffix.data.reverse

/-- Model of `os.path.join` for the one shape used by the program (dir, filename). -/
def joinPath (dir name : String) : String := dir ++ "/" ++ name

/-- UTF-8 encoding of a single Unicode scalar value. -/
def utf8Char (n : Nat) : Bytes :=
  if n < 0x80 then [n]
  else if n < 0x800 then [0xC0 + n / 64, 0x80 + n % 64]
  else if n < 0x10000 then [0xE0 + n / 4096, 0x80 + n / 64 % 64, 0x80 + n % 64]
  else [0xF0 + n / 262144, 0x80 + n / 4096 % 64, 0x80 + n / 64 % 64, 0x80 + n % 64]

/-- Python `str.encode()` / `open(..., encoding="utf-8")`: UTF-8 bytes. -/
def utf8Encode (s : String) : Bytes := s.data.flatMap (fun c => utf8Char c.toNat)

/-! Model of `textwrap.dedent`, from CPython `textwrap.py`. -/

/-- A line consisting solely of spaces/tabs (and nonempty):
matched by `_whitespace_only_re` and blanked before margin computation. -/
def isBlankLine (l : List Char) : Bool :=
  !l.isEmpty && l.all (fun c => c = ' ' || c = '\t')

/-- Leading run of spaces and tabs of a line. -/
def leadingWs (l : List Char) : List Char :=
  l.takeWhile (fun c => c = ' ' || c = '\t')

/-- Longest common prefix of two character lists.  The margin-update cases in
CPython `dedent` (`startswith` either way, else truncate at first mismatch)
all compute exactly this. -/
def lcp : List Char → List Char → List Char
  | a :: as, b :: bs => if a = b then a :: lcp as bs else []
  | _, _ => []

/-- Model of `textwrap.dedent`: blank out whitespace-only lines, find the common
leading space/tab margin of the remaining nonempty lines, and remove it from
the start of every line that carries it. -/
def pyDedent (s : String) : String :=
  let lines := (s.data.splitOn '\n').map (fun l => if isBlankLine l then [] else l)
  let indents := (lines.filter (fun l => !l.isEmpty)).map leadingWs
  let margin := match indents with
    | [] => []
    | i :: rest => rest.foldl lcp i
  if margin.isEmpty then ⟨List.intercalate ['\n'] lines⟩
  else ⟨List.intercalate ['\n']
    (lines.map fun l => if startsWithL l margin then l.drop margin.length else l)⟩

/-! Base64 (`base64.b64encode` / `base64.b64decode`). -/

/-- The standard base64 alphabet. -/
def b64Alphabet : List Char :=
  "ABCDEFGHIJKLMNOPQRSTUVWXYZabcdefghijklmnopqrstuvwxyz0123456789+/".data

/-- Character for a sextet value. -/
def b64EncChar (n : Nat) : Char := b64Alphabet.getD n 'A'

/-- Sextet value of a character, `none` when outside the alphabet. -/
def b64Val (c : Char) : Option Nat :=
  b64Alphabet.indexOf? c

/-- Model of `base64.b64encode` on bytes, producing the character list: standard
chunks of three bytes into four characters, `=`-padded. -/
def b64encodeChars : Bytes → List Char
  | [] => []
  | [a] => [b64EncChar (a / 4), b64EncChar (a % 4 * 16), '=', '=']
  | [a, b] => [b64EncChar (a / 4), b64EncChar (a % 4 * 16 + b / 16),
               b64EncChar (b % 16 * 4), '=']
  | a :: b :: c :: rest =>
      b64EncChar (a / 4) :: b64EncChar (a % 4 * 16 + b / 16) ::
      b64EncChar (b % 16 * 4 + c / 64) :: b64EncChar (c % 64) ::
      b64encodeChars rest

/-- Model of `base64.b64encode(...).decode("utf-8")`: the base64 string of a byte string. -/
def b64encode (bs : Bytes) : String := ⟨b64encodeChars bs⟩

/-- Decoder loop of CPython `binascii.a2b_base64` (non-strict mode): state is
(quad position, pending bits, pads seen); characters outside the alphabet are
skipped; `=` closing a quad ends the scan; a dangling quad position at the end
of input is an error. -/
def a2bLoop : List Char → Nat → Nat → Nat → Bytes → Except String Bytes
  | [], quadPos, _, _, out =>
      if quadPos = 0 then .ok out
      else if quadPos = 1 then
        .error "Invalid base64-encoded string: number of data characters cannot be 1 more than a multiple of 4"
      else .error "Incorrect padding"
  | c :: rest, quadPos, leftchar, pads, out =>
      if c = '=' then
        if 2 ≤ quadPos then
          if 4 ≤ quadPos + pads + 1 then .ok out
          else a2bLoop rest quadPos leftchar (pads + 1) out
        else a2bLoop rest quadPos leftchar pads out
      else
        match b64Val c with
        | none => a2bLoop rest quadPos leftchar pads out
        | some v =>
          match quadPos with
          | 0 => a2bLoop rest 1 v pads out
          | 1 => a2bLoop rest 2 (v % 16) pads (out ++ [leftchar * 4 + v / 16])
          | 2 => a2bLoop rest 3 (v % 4) pads (out ++ [leftchar * 16 + v / 4])
          | _ => a2bLoop rest 0 0 pads (out ++ [leftchar * 64 + v])

/-- Model of `base64.b64decode` on a string: bytes, or a `binascii.Error` description. -/
def b64decode (s : String) : Except String Bytes :=
  a2bLoop s.data 0 0 0 []

/-! MD5 (`hashlib.md5(...).hexdigest()`), RFC 1321. -/

/-- MD5 round constants `K[i] = floor(abs(sin(i+1)) * 2^32)`. -/
def md5K : List Nat :=
  [0xd76aa478, 0xe8c7b756, 0x242070db, 0xc1bdceee, 0xf57c0faf, 0x4787c62a,
   0xa8304613, 0xfd469501, 0x698098d8, 0x8b44f7af, 0xffff5bb1, 0x895cd7be,
   0x6b901122, 0xfd987193, 0xa679438e, 0x49b40821, 0xf61e2562, 0xc040b340,
   0x265e5a51, 0xe9b6c7aa, 0xd62f105d, 0x02441453, 0xd8a1e681, 0xe7d3fbc8,
   0x21e1cde6, 0xc33707d6, 0xf4d50d87, 0x455a14ed, 0xa9e3e905, 0xfcefa3f8,
   0x676f02d9, 0x8d2a4c8a, 0xfffa3942, 0x8771f681, 0x6d9d6122, 0xfde5380c,
   0xa4beea44, 0x4bdecfa9, 0xf6bb4b60, 0xbebfbc70, 0x289b7ec6, 0xeaa127fa,
   0xd4ef3085, 0x04881d05, 0xd9d4d039, 0xe6db99e5, 0x1fa27cf8, 0xc4ac5665,
   0xf4292244, 0x432aff97, 0xab9423a7, 0xfc93a039, 0x655b59c3, 0x8f0ccc92,
   0xffeff47d, 0x85845dd1, 0x6fa87e4f, 0xfe2ce6e0, 0xa3014314, 0x4e0811a1,
   0xf7537e82, 0xbd3af235, 0x2ad7d2bb, 0xeb86d391]

/-- MD5 per-round left-rotation amounts. -/
def md5S : List Nat :=
  [7, 12, 17, 22, 7, 12, 17, 22, 7, 12, 17, 22, 7, 12, 17, 22,
   5, 9, 14, 20, 5, 9, 14, 20, 5, 9, 14, 20, 5, 9, 14, 20,
   4, 11, 16, 23, 4, 11, 16, 23, 4, 11, 16, 23, 4, 11, 16, 23,
   6, 10, 15, 21, 6, 10, 15, 21, 6, 10, 15, 21, 6, 10, 15, 21]

/-- 32-bit left rotation (for `x < 2^32`, `n < 32`). -/
def rotl32 (x n : Nat) : Nat := (x * 2 ^ n + x / 2 ^ (32 - n)) % 2 ^ 32

/-- MD5 nonlinear function of round `i`. -/
def md5F (i b c d : Nat) : Nat :=
  if i < 16 then (b &&& c) ||| ((0xffffffff ^^^ b) &&& d)
  else if i < 32 then (d &&& b) ||| ((0xffffffff ^^^ d) &&& c)
  else if i < 48 then b ^^^ c ^^^ d
  else c ^^^ (b ||| (0xffffffff ^^^ d))

/-- MD5 message-word index of round `i`. -/
def md5G (i : Nat) : Nat :=
  if i < 16 then i
  else if i < 32 then (5 * i + 1) % 16
  else if i < 48 then (3 * i + 5) % 16
  else 7 * i % 16

/-- Little-endian 32-bit words of a byte string. -/
def leWords : Bytes → List Nat
  | b0 :: b1 :: b2 :: b3 :: rest =>
      (b0 + b1 * 256 + b2 * 65536 + b3 * 16777216) :: leWords rest
  | _ => []

/-- One MD5 round on state `(a, b, c, d)`. -/
def md5Step (ws : List Nat) (st : Nat × Nat × Nat × Nat) (i : Nat) :
    Nat × Nat × Nat × Nat :=
  let (a, b, c, d) := st
  let f := (md5F i b c d + a + md5K.getD i 0 + ws.getD (md5G i) 0) % 2 ^ 32
  (d, (b + rotl32 f (md5S.getD i 0)) % 2 ^ 32, b, c)

/-- Process one 64-byte chunk. -/
def md5Chunk (h : Nat × Nat × Nat × Nat) (chunk : Bytes) : Nat × Nat × Nat × Nat :=
  let (a, b, c, d) := (List.range 64).foldl (md5Step (leWords chunk)) h
  ((h.1 + a) % 2 ^ 32, (h.2.1 + b) % 2 ^ 32, (h.2.2.1 + c) % 2 ^ 32,
   (h.2.2.2 + d) % 2 ^ 32)

/-- Eight little-endian bytes of a (64-bit) length value. -/
def leBytes8 (n : Nat) : Bytes := (List.range 8).map (fun i => n / 2 ^ (8 * i) % 256)

/-- MD5 padding: append `0x80`, zero bytes to 56 mod 64, then the bit length. -/
def md5Pad (bs : Bytes) : Bytes :=
  bs ++ 0x80 :: List.replicate ((119 - bs.length % 64) % 64) 0 ++
    leBytes8 (bs.length * 8 % 2 ^ 64)

/-- Split a byte string into 64-byte chunks (fuel-driven structural
recursion; `fuel = bs.length` always suffices since each step drops at least
one byte of a nonempty list). -/
def chunks64Fuel : Nat → Bytes → List Bytes
  | 0, _ => []
  | _, [] => []
  | fuel + 1, bs => bs.take 64 :: chunks64Fuel fuel (bs.drop 64)

/-- Split a byte string into 64-byte chunks. -/
def chunks64 (bs : Bytes) : List Bytes := chunks64Fuel bs.length bs

/-- The four MD5 state words of a message. -/
def md5Words (bs : Bytes) : Nat × Nat × Nat × Nat :=
  (chunks64 (md5Pad bs)).foldl md5Chunk (0x67452301, 0xefcdab89, 0x98badcfe, 0x10325476)

/-- Four little-endian bytes of a 32-bit word. -/
def wordLEBytes (w : Nat) : Bytes := [w % 256, w / 256 % 256, w / 65536 % 256, w / 16777216 % 256]

/-- Lower-case hex digit. -/
def hexDigit (n : Nat) : Char := "0123456789abcdef".data.getD n '0'

/-- Two-character hex rendering of a byte. -/
def byteHex (b : Nat) : List Char := [hexDigit (b / 16), hexDigit (b % 16)]

/-- Character list of `hashlib.md5(bs).hexdigest()`. -/
def md5hexChars (bs : Bytes) : List Char :=
  ((wordLEBytes (md5Words bs).1 ++ wordLEBytes (md5Words bs).2.1 ++
    wordLEBytes (md5Words bs).2.2.1 ++ wordLEBytes (md5Words bs).2.2.2).map byteHex).flatten

/-- Model of `hashlib.md5(bs).hexdigest()`. -/
def md5hex (bs : Bytes) : String := ⟨md5hexChars bs⟩

/-- Model of `get_unique_filename(content, prefix, suffix)`: first 8 hex characters of
the MD5 of the UTF-8 content, an underscore, and the timestamp string, wrapped
in the given prefix and suffix.  The `datetime.now().strftime("%Y%m%d_%H%M%S")`
timestamp is passed explicitly as `ts`. -/
def get_unique_filename (content pfx suffix ts : String) : String :=
  pfx ++ ⟨(md5hexChars (utf8Encode content)).take 8⟩ ++ "_" ++ ts ++ suffix

/-! Data model of the relay. -/

/-- A file entry of the sandbox response: a JSON object that may lack the
`path` / `content` keys (subscripting a missing key raises `KeyError`). -/
structure SandboxFile where
  path? : Option String
  content? : Option String
deriving DecidableEq, Repr

/-- The sandbox response after JSON parsing and the `.get` defaulting of
`execute_python_code` (`returncode` defaults to 0, `stdout` to `""`,
`files` to `[]`). -/
structure SandboxResponse where
  returncode : Int
  stdout : String
  files : List SandboxFile
deriving DecidableEq, Repr

/-- One file descriptor of the request payload. -/
structure PayloadFile where
  path : String
  content : String
deriving DecidableEq, Repr

/-- The JSON payload POSTed to the sandbox endpoint. -/
structure Payload where
  args : List String
  files : List PayloadFile
deriving DecidableEq, Repr

/-- The result dictionary returned to the caller; keys absent from the
dictionary are `none`. -/
structure ExecResult where
  status : String
  returncode : Option Int := none
  error_type : Option String := none
  error_message : Option String := none
  output_type : Option String := none
  stdout : Option String := none
  plot_data : Option String := none
  plot_path : Option String := none
  details : Option String := none
deriving DecidableEq, Repr

/-- Persistent filesystem state: the set of created directories and the file
contents.  Writes prepend; a read takes the most recent write. -/
structure FS where
  dirs : List String
  files : List (String × Bytes)
deriving DecidableEq, Repr

/-- Model of `os.makedirs(d, exist_ok=True)`. -/
def FS.mkdirs (fs : FS) (d : String) : FS :=
  if d ∈ fs.dirs then fs else { fs with dirs := d :: fs.dirs }

/-- Write (create or truncate-and-replace) a file. -/
def FS.write (fs : FS) (p : String) (b : Bytes) : FS :=
  { fs with files := (p, b) :: fs.files }

/-- Current content of a file, `none` if it does not exist. -/
def FS.read (fs : FS) (p : String) : Option Bytes :=
  (fs.files.find? (fun e => e.1 = p)).map (fun e => e.2)

/-- The environment of one call: the clock (the timestamp string produced by
the n-th `datetime.now().strftime("%Y%m%d_%H%M%S")` query of the call), the
sandbox service (HTTP POST, JSON parse and `.get` defaulting, abstracted as a
function that may raise), and `Config.TEMP_DIR` (a fixed path, kept abstract). -/
structure Env where
  now : Nat → String
  sandbox : Payload → Except String SandboxResponse
  tempDir : String

/-- The dictionary built by the top-level `except Exception` handler. -/
def mkSystemError (msg : String) : ExecResult :=
  { status := "error", error_type := some "system_error",
    error_message := some msg,
    details := some "System exception occurred during execution" }

/-- Steps 2–3 of the pipeline: write the dedented and stripped source into
the temporary directory as UTF-8 and build the request payload from the bytes
read back from that file (the temporary directory is deleted when the `with`
block exits, so it is modelled as a fresh local filesystem). -/
def requestPayload (python_code mainFilename : String) : Payload :=
  let tmp : FS := FS.write ⟨[], []⟩ mainFilename (utf8Encode (pyStrip (pyDedent python_code)))
  let contentBytes := (tmp.read mainFilename).getD []
  { args := [mainFilename],
    files := [{ path := mainFilename, content := b64encode contentBytes }] }

/-- The `for file in files:` loop handling image outputs.  Returns the
updated result dictionary, or the exception that escaped the loop, together
with the filesystem as it stands at that point (writes before a failure are
not rolled back).  `k` is the index of the next clock query.  Subscripting a
missing key raises `KeyError`; `open(output_path, "wb")` creates/truncates
the target before `base64.b64decode` runs, so a missing `content` key or a
decode failure still leaves an empty file at the generated path. -/
def processFiles (env : Env) : List SandboxFile → Nat → ExecResult → FS →
    (Except String ExecResult) × FS
  | [], _, r, fs => (.ok r, fs)
  | f :: rest, k, r, fs =>
    match f.path? with
    | none => (.error "KeyError: path", fs)
    | some p =>
      if pyEndsWith p ".png" then
        let outPath := joinPath env.tempDir (get_unique_filename "" "plot_" ".png" (env.now k))
        let fsOpen := fs.write outPath []
        match f.content? with
        | none => (.error "KeyError: content", fsOpen)
        | some content =>
          match b64decode content with
          | .error e => (.error e, fsOpen)
          | .ok bytes =>
            processFiles env rest (k + 1)
              { r with output_type := some "plot", plot_data := some content,
                       plot_path := some outPath,
                       details := some "Code executed successfully and generated a plot" }
              (fsOpen.write outPath bytes)
      else processFiles env rest k r fs

/-- The filename generated for the submitted source: hash of the original
(unnormalized) code, `.py` suffix, first clock query of the call. -/
def mainFilename (env : Env) (python_code : String) : String :=
  get_unique_filename python_code "" ".py" (env.now 0)

/-- The dictionary built before the returncode test:
`{"status": "success" if returncode == 0 else "error", "returncode": returncode}`. -/
def baseResult (rc : Int) : ExecResult :=
  { status := if rc = 0 then "success" else "error", returncode := some rc }

/-- The result dictionary as it stands after the text-output branch, on the
zero-returncode path: if the trimmed stdout is non-empty, the text fields are
attached to the base dictionary. -/
def textStage (resp : SandboxResponse) : ExecResult :=
  if pyStrip resp.stdout ≠ "" then
    { baseResult resp.returncode with
        output_type := some "text", stdout := some (pyStrip resp.stdout),
        details := some "Code executed successfully and produced text output" }
  else baseResult resp.returncode

/-- Model of `execute_python_code(python_code)`: the tool operation, over an explicit
environment and filesystem.  Filesystem primitives are modelled as total;
the failure points of the pipeline (network / JSON parsing, missing keys,
base64 decoding) surface as `Except.error` values which the top-level
handler of the source converts into a `system_error` dictionary. -/
def execute_python_code (env : Env) (python_code : String) (fs : FS) :
    ExecResult × FS :=
  let fs1 := fs.mkdirs env.tempDir
  match env.sandbox (requestPayload python_code (mainFilename env python_code)) with
  | .error e => (mkSystemError e, fs1)
  | .ok resp =>
    if resp.returncode ≠ 0 then
      ({ baseResult resp.returncode with
           error_type := some "execution_error",
           error_message := some (pyStrip resp.stdout),
           details := some "Code execution encountered syntax error or runtime error" },
       fs1)
    else
      match processFiles env resp.files 1 (textStage resp) fs1 with
      | (.error e, fs2) => (mkSystemError e, fs2)
      | (.ok r2, fs2) =>
        if pyStrip resp.stdout = "" ∧ resp.files = [] then
          ({ r2 with output_type := some "none",
                     details := some "Code executed successfully but produced no output" },
           fs2)
        else (r2, fs2)

/-- The path of the plot file generated from a clock query returning `ts`:
`os.path.join(Config.TEMP_DIR, get_unique_filename("", "plot_", ".png"))`. -/
def plotPath (env : Env) (ts : String) : String :=
  joinPath env.tempDir (get_unique_filename "" "plot_" ".png" ts)

/-- A response file entry on which the loop body cannot raise: it has a
`path` key, and if the path names a PNG it also has a `content` key holding
decodable base64. -/
def wfFile (f : SandboxFile) : Bool :=
  match f.path? with
  | none => false
  | some p =>
    !pyEndsWith p ".png" ||
      (match f.content? with
       | none => false
       | some c => (b64decode c).isOk)

/-- The last entry of the list whose path ends in `.png` (the one whose
fields survive the loop's last-write-wins updates). -/
def lastPng : List SandboxFile → Option SandboxFile
  | [] => none
  | f :: rest =>
    match lastPng rest with
    | some g => some g
    | none =>
      match f.path? with
      | some p => if pyEndsWith p ".png" then some f else none
      | none => none

/-! Elementary filesystem lemmas. -/

lemma FS.read_write_self (fs : FS) (p : String) (b : Bytes) :
    (fs.write p b).read p = some b := by
  simp [FS.write, FS.read]

lemma FS.read_write_ne (fs : FS) (p q : String) (b : Bytes) (h : q ≠ p) :
    (fs.write p b).read q = fs.read q := by
  simp only [FS.write, FS.read, List.find?]
  rw [decide_eq_false (show ¬(p = q) from fun hc => h hc.symm)]

lemma FS.write_dirs (fs : FS) (p : String) (b : Bytes) :
    (fs.write p b).dirs = fs.dirs := rfl

lemma FS.mkdirs_idem (fs : FS) (d : String) :
    (fs.mkdirs d).mkdirs d = fs.mkdirs d := by
  by_cases h : d ∈ fs.dirs <;> simp [FS.mkdirs, h]

lemma FS.mkdirs_mem (fs : FS) (d : String) : d ∈ (fs.mkdirs d).dirs := by
  by_cases h : d ∈ fs.dirs <;> simp [FS.mkdirs, h]

lemma FS.mkdirs_read (fs : FS) (d : String) (q : String) :
    (fs.mkdirs d).read q = fs.read q := by
  by_cases h : d ∈ fs.dirs <;> simp [FS.mkdirs, FS.read, h]

/-! Base64 encode/decode round trip. -/

lemma b64Val_encChar : ∀ v < 64, b64Val (b64EncChar v) = some v := by decide

lemma b64EncChar_ne_pad : ∀ v < 64, b64EncChar v ≠ '=' := by decide

lemma a2bLoop_step0 (v : Nat) (hv : v < 64) (rest : List Char) (left pads : Nat) (out : Bytes) :
    a2bLoop (b64EncChar v :: rest) 0 left pads out = a2bLoop rest 1 v pads out := by
  simp only [a2bLoop, if_neg (b64EncChar_ne_pad v hv), b64Val_encChar v hv]

lemma a2bLoop_step1 (v : Nat) (hv : v < 64) (rest : List Char) (left pads : Nat) (out : Bytes) :
    a2bLoop (b64EncChar v :: rest) 1 left pads out =
      a2bLoop rest 2 (v % 16) pads (out ++ [left * 4 + v / 16]) := by
  simp only [a2bLoop, if_neg (b64EncChar_ne_pad v hv), b64Val_encChar v hv]

lemma a2bLoop_step2 (v : Nat) (hv : v < 64) (rest : List Char) (left pads : Nat) (out : Bytes) :
    a2bLoop (b64EncChar v :: rest) 2 left pads out =
      a2bLoop rest 3 (v % 4) pads (out ++ [left * 16 + v / 4]) := by
  simp only [a2bLoop, if_neg (b64EncChar_ne_pad v hv), b64Val_encChar v hv]

lemma a2bLoop_step3 (v : Nat) (hv : v < 64) (rest : List Char) (left pads : Nat) (out : Bytes) :
    a2bLoop (b64EncChar v :: rest) 3 left pads out =
      a2bLoop rest 0 0 pads (out ++ [left * 64 + v]) := by
  simp only [a2bLoop, if_neg (b64EncChar_ne_pad v hv), b64Val_encChar v hv]

lemma a2bLoop_pad (rest : List Char) (qp left pads : Nat) (out : Bytes) (h2 : 2 ≤ qp) :
    a2bLoop ('=' :: rest) qp left pads out =
      if 4 ≤ qp + pads + 1 then .ok out else a2bLoop rest qp left (pads + 1) out := by
  simp only [a2bLoop, if_pos h2]
  simp

lemma a2bLoop_encode : ∀ (bs : Bytes), (∀ x ∈ bs, x < 256) → ∀ (pads : Nat) (out : Bytes),
    a2bLoop (b64encodeChars bs) 0 0 pads out = Except.ok (out ++ bs)
  | [], _, pads, out => by simp [b64encodeChars, a2bLoop]
  | [a], h, pads, out => by
      have ha : a < 256 := h a (by simp)
      simp only [b64encodeChars]
      rw [a2bLoop_step0 (a / 4) (by omega), a2bLoop_step1 (a % 4 * 16) (by omega)]
      rw [show a / 4 * 4 + a % 4 * 16 / 16 = a from by omega]
      rw [show a % 4 * 16 % 16 = 0 from by omega]
      rw [a2bLoop_pad _ _ _ _ _ (by omega)]
      by_cases hp : 4 ≤ 2 + pads + 1
      · rw [if_pos hp]
      · rw [if_neg hp, a2bLoop_pad _ _ _ _ _ (by omega), if_pos (by omega)]
  | [a, b], h, pads, out => by
      have ha : a < 256 := h a (by simp)
      have hb : b < 256 := h b (by simp)
      simp only [b64encodeChars]
      rw [a2bLoop_step0 (a / 4) (by omega), a2bLoop_step1 (a % 4 * 16 + b / 16) (by omega)]
      rw [show a / 4 * 4 + (a % 4 * 16 + b / 16) / 16 = a from by omega]
      rw [show (a % 4 * 16 + b / 16) % 16 = b / 16 from by omega]
      rw [a2bLoop_step2 (b % 16 * 4) (by omega)]
      rw [show b / 16 * 16 + b % 16 * 4 / 4 = b from by omega]
      rw [show b % 16 * 4 % 4 = 0 from by omega]
      rw [a2bLoop_pad _ _ _ _ _ (by omega), if_pos (by omega)]
      simp
  | a :: b :: c :: rest, h, pads, out => by
      have ha : a < 256 := h a (by simp)
      have hb : b < 256 := h b (by simp)
      have hc : c < 256 := h c (by simp)
      simp only [b64encodeChars]
      rw [a2bLoop_step0 (a / 4) (by omega), a2bLoop_step1 (a % 4 * 16 + b / 16) (by omega)]
      rw [show a / 4 * 4 + (a % 4 * 16 + b / 16) / 16 = a from by omega]
      rw [show (a % 4 * 16 + b / 16) % 16 = b / 16 from by omega]
      rw [a2bLoop_step2 (b % 16 * 4 + c / 64) (by omega)]
      rw [show b / 16 * 16 + (b % 16 * 4 + c / 64) / 4 = b from by omega]
      rw [show (b % 16 * 4 + c / 64) % 4 = c / 64 from by omega]
      rw [a2bLoop_step3 (c % 64) (by omega)]
      rw [show c / 64 * 64 + c % 64 = c from by omega]
      rw [a2bLoop_encode rest (fun x hx => h x (by simp [hx])) pads (((out ++ [a]) ++ [b]) ++ [c])]
      simp

lemma b64decode_encode (bs : Bytes) (h : ∀ x ∈ bs, x < 256) :
    b64decode (b64encode bs) = Except.ok bs :=
  a2bLoop_encode bs h 0 []

lemma processFiles_frame (env : Env) (ts : String) (hnow : ∀ j, env.now j = ts) :
    ∀ (files : List SandboxFile) (k : Nat) (r : ExecResult) (fs : FS),
      ((processFiles env files k r fs).2.dirs = fs.dirs) ∧
      ∀ q, q ≠ plotPath env ts → (processFiles env files k r fs).2.read q = fs.read q := by
  intro files
  induction files with
  | nil => intro k r fs; exact ⟨rfl, fun q _ => rfl⟩
  | cons f rest ih =>
    intro k r fs
    cases hp : f.path? with
    | none => simp [processFiles, hp]
    | some p =>
      by_cases hpng : pyEndsWith p ".png" = true
      · cases hc : f.content? with
        | none =>
          simp only [processFiles, hp, hc, hpng, if_true, hnow k]
          refine ⟨rfl, fun q hq => ?_⟩
          exact FS.read_write_ne fs _ q [] (by simpa [plotPath] using hq)
        | some c =>
          cases hd : b64decode c with
          | error e =>
            simp only [processFiles, hp, hc, hd, hpng, if_true, hnow k]
            refine ⟨rfl, fun q hq => ?_⟩
            exact FS.read_write_ne fs _ q [] (by simpa [plotPath] using hq)
          | ok bytes =>
            simp only [processFiles, hp, hc, hd, hpng, if_true, hnow k]
            refine ⟨(ih _ _ _).1, fun q hq => ?_⟩
            rw [(ih _ _ _).2 q hq,
                FS.read_write_ne _ _ q _ (by simpa [plotPath] using hq),
                FS.read_write_ne fs _ q [] (by simpa [plotPath] using hq)]
      · simp only [processFiles, hp, hpng, if_false]
        exact ih k r fs

lemma lastPng_cons_some (f g : SandboxFile) (rest : List SandboxFile)
    (h : lastPng rest = some g) : lastPng (f :: rest) = some g := by
  simp [lastPng, h]

lemma lastPng_cons_nonpng (f : SandboxFile) (rest : List SandboxFile) (p : String)
    (hp : f.path? = some p) (hpng : pyEndsWith p ".png" = false) :
    lastPng (f :: rest) = lastPng rest := by
  cases h : lastPng rest <;> simp [lastPng, h, hp, hpng]

lemma lastPng_cons_png (f : SandboxFile) (rest : List SandboxFile) (p : String)
    (hp : f.path? = some p) (hpng : pyEndsWith p ".png" = true)
    (h : lastPng rest = none) : lastPng (f :: rest) = some f := by
  simp [lastPng, h, hp, hpng]

lemma processFiles_ok (env : Env) (ts : String) (hnow : ∀ j, env.now j = ts) :
    ∀ (files : List SandboxFile), (∀ f ∈ files, wfFile f = true) →
    ∀ (k : Nat) (r : ExecResult) (fs : FS),
    ∃ r' fs', processFiles env files k r fs = (Except.ok r', fs') ∧
      (lastPng files = none → r' = r ∧ fs' = fs) ∧
      (∀ g, lastPng files = some g →
        ∃ c bs, g.content? = some c ∧ b64decode c = Except.ok bs ∧
          r' = { r with
                 output_type := some "plot",
                 plot_data := some c,
                 plot_path := some (plotPath env ts),
                 details := some "Code executed successfully and generated a plot" } ∧
          fs'.read (plotPath env ts) = some bs) := by
  intro files
  induction files with
  | nil =>
    intro _ k r fs
    exact ⟨r, fs, rfl, fun _ => ⟨rfl, rfl⟩, fun g hg => by simp [lastPng] at hg⟩
  | cons f rest ih =>
    intro hwf k r fs
    have hwff := hwf f (by simp)
    cases hp : f.path? with
    | none => simp [wfFile, hp] at hwff
    | some p =>
      by_cases hpng : pyEndsWith p ".png" = true
      · have hcd : ∃ c, f.content? = some c ∧ (b64decode c).isOk = true := by
          cases hc : f.content? with
          | none => simp [wfFile, hp, hpng, hc] at hwff
          | some c => exact ⟨c, rfl, by simpa [wfFile, hp, hpng, hc] using hwff⟩
        obtain ⟨c, hc, hok⟩ := hcd
        obtain ⟨bs0, hd⟩ : ∃ bs0, b64decode c = Except.ok bs0 := by
          cases hdd : b64decode c with
          | error e => rw [hdd] at hok; cases hok
          | ok b => exact ⟨b, rfl⟩
        simp only [processFiles, hp, hc, hd, hpng, if_true, hnow k]
        obtain ⟨r', fs', heq, hnone, hsome⟩ :=
          ih (fun x hx => hwf x (by simp [hx])) (k + 1)
            { r with
              output_type := some "plot",
              plot_data := some c,
              plot_path := some (plotPath env ts),
              details := some "Code executed successfully and generated a plot" }
            ((fs.write (plotPath env ts) []).write (plotPath env ts) bs0)
        cases hl : lastPng rest with
        | some g =>
          refine ⟨r', fs', heq, ?_, ?_⟩
          · intro habs
            rw [lastPng_cons_some f g rest hl] at habs
            cases habs
          · intro g' hg'
            rw [lastPng_cons_some f g rest hl] at hg'
            obtain rfl : g = g' := by injection hg'
            obtain ⟨c', bs', hc', hd', hr', hread⟩ := hsome g hl
            exact ⟨c', bs', hc', hd', by rw [hr'], hread⟩
        | none =>
          refine ⟨r', fs', heq, ?_, ?_⟩
          · intro habs
            rw [lastPng_cons_png f rest p hp hpng hl] at habs
            cases habs
          · intro g' hg'
            rw [lastPng_cons_png f rest p hp hpng hl] at hg'
            obtain rfl : f = g' := by injection hg'
            refine ⟨c, bs0, hc, hd, (hnone hl).1, ?_⟩
            rw [(hnone hl).2]
            exact FS.read_write_self _ _ _
      · have hpf : pyEndsWith p ".png" = false := by simpa using hpng
        simp only [processFiles, hp, hpf, if_false]
        obtain ⟨r', fs', heq, hnone, hsome⟩ := ih (fun x hx => hwf x (by simp [hx])) k r fs
        refine ⟨r', fs', heq, ?_, ?_⟩
        · intro h0
          exact hnone (by rwa [lastPng_cons_nonpng f rest p hp hpf] at h0)
        · intro g hg
          exact hsome g (by rwa [lastPng_cons_nonpng f rest p hp hpf] at hg)

lemma processFiles_err (env : Env) (ts : String) (hnow : ∀ j, env.now j = ts) :
    ∀ (good : List SandboxFile), (∀ f ∈ good, wfFile f = true) →
    ∀ (bad : SandboxFile), wfFile bad = false →
    ∀ (rest : List SandboxFile) (k : Nat) (r : ExecResult) (fs : FS),
    ∃ e fs', processFiles env (good ++ bad :: rest) k r fs = (Except.error e, fs') ∧
      (fs'.read (plotPath env ts) = fs.read (plotPath env ts) ∨
        ∃ bs, fs'.read (plotPath env ts) = some bs) ∧
      (lastPng good ≠ none → ∃ bs, fs'.read (plotPath env ts) = some bs) := by
  intro good
  induction good with
  | nil =>
    intro _ bad hbad rest k r fs
    cases hp : bad.path? with
    | none =>
      refine ⟨"KeyError: path", fs, ?_, Or.inl rfl, fun h0 => absurd rfl h0⟩
      simp [processFiles, hp]
    | some p =>
      have hpng : pyEndsWith p ".png" = true := by
        cases hX : pyEndsWith p ".png" with
        | false => simp [wfFile, hp, hX] at hbad
        | true => rfl
      cases hc : bad.content? with
      | none =>
        refine ⟨"KeyError: content", fs.write (plotPath env ts) [], ?_,
          Or.inr ⟨[], FS.read_write_self _ _ _⟩, fun h0 => absurd rfl h0⟩
        simp [processFiles, hp, hpng, hc, hnow k, plotPath]
      | some c =>
        obtain ⟨e, hde⟩ : ∃ e, b64decode c = Except.error e := by
          cases hdd : b64decode c with
          | error e => exact ⟨e, rfl⟩
          | ok b => simp [wfFile, hp, hpng, hc, hdd, Except.isOk, Except.toBool] at hbad
        refine ⟨e, fs.write (plotPath env ts) [], ?_,
          Or.inr ⟨[], FS.read_write_self _ _ _⟩, fun h0 => absurd rfl h0⟩
        simp [processFiles, hp, hpng, hc, hde, hnow k, plotPath]
  | cons f good' ih =>
    intro hwf bad hbad rest k r fs
    have hwff := hwf f (by simp)
    cases hp : f.path? with
    | none => simp [wfFile, hp] at hwff
    | some p =>
      by_cases hpng : pyEndsWith p ".png" = true
      · have hcd : ∃ c, f.content? = some c ∧ (b64decode c).isOk = true := by
          cases hc : f.content? with
          | none => simp [wfFile, hp, hpng, hc] at hwff
          | some c => exact ⟨c, rfl, by simpa [wfFile, hp, hpng, hc] using hwff⟩
        obtain ⟨c, hc, hok⟩ := hcd
        obtain ⟨bs0, hd⟩ : ∃ bs0, b64decode c = Except.ok bs0 := by
          cases hdd : b64decode c with
          | error e => rw [hdd] at hok; cases hok
          | ok b => exact ⟨b, rfl⟩
        simp only [List.cons_append, processFiles, hp, hc, hd, hpng, if_true, hnow k]
        obtain ⟨e, fs', heq, hdisj, _⟩ :=
          ih (fun x hx => hwf x (by simp [hx])) bad hbad rest (k + 1)
            { r with
              output_type := some "plot",
              plot_data := some c,
              plot_path := some (plotPath env ts),
              details := some "Code executed successfully and generated a plot" }
            ((fs.write (plotPath env ts) []).write (plotPath env ts) bs0)
        have hex : ∃ bs, fs'.read (plotPath env ts) = some bs := by
          cases hdisj with
          | inl h => exact ⟨bs0, by rw [h]; exact FS.read_write_self _ _ _⟩
          | inr h => exact h
        exact ⟨e, fs', heq, Or.inr hex, fun _ => hex⟩
      · have hpf : pyEndsWith p ".png" = false := by simpa using hpng
        simp only [List.cons_append, processFiles, hp, hpf, if_false]
        obtain ⟨e, fs', heq, hdisj, himpl⟩ :=
          ih (fun x hx => hwf x (by simp [hx])) bad hbad rest k r fs
        exact ⟨e, fs', heq, hdisj,
          fun h0 => himpl (by rwa [lastPng_cons_nonpng f good' p hp hpf] at h0)⟩

/-! Claim theorems. -/

/-- Constant environment used to instantiate theorems at concrete inputs:
clock pinned to one timestamp string, sandbox returning a fixed outcome. -/
def constEnv (r : Except String SandboxResponse) : Env :=
  { now := fun _ => "TS", sandbox := fun _ => r, tempDir := "temp" }

/-- C1: `execute_python_code` never raises past its boundary: for every
input and every failure of the pipeline (the sandbox call failing — network
failure, unreachable endpoint, malformed JSON — or the response-translation
loop failing — missing key, base64 decode failure), the call returns the
structured result with status `"error"`, error_type `"system_error"` and
error_message equal to the exception's description, instead of propagating
the exception (the model is a total function, so nothing can escape). -/
theorem execute_python_code_no_raise (env : Env) (code : String) (fs : FS) (e : String)
    (hfail :
      env.sandbox (requestPayload code (mainFilename env code)) = Except.error e ∨
      ∃ resp, env.sandbox (requestPayload code (mainFilename env code)) = Except.ok resp ∧
        resp.returncode = 0 ∧
        (processFiles env resp.files 1 (textStage resp) (fs.mkdirs env.tempDir)).1 =
          Except.error e) :
    (execute_python_code env code fs).1 = mkSystemError e ∧
    (execute_python_code env code fs).1.status = "error" ∧
    (execute_python_code env code fs).1.error_type = some "system_error" ∧
    (execute_python_code env code fs).1.error_message = some e := by
  have hm : (execute_python_code env code fs).1 = mkSystemError e := by
    cases hfail with
    | inl h => simp [execute_python_code, h]
    | inr h =>
      obtain ⟨resp, hok, hrc, hperr⟩ := h
      rcases hpf : processFiles env resp.files 1 (textStage resp) (fs.mkdirs env.tempDir)
        with ⟨res, fs2⟩
      rw [hpf] at hperr
      replace hperr : res = Except.error e := hperr
      subst hperr
      simp [execute_python_code, hok, hrc, hpf]
  exact ⟨hm, by rw [hm]; rfl, by rw [hm]; rfl, by rw [hm]; rfl⟩

theorem execute_python_code_no_raise_witness :
    (execute_python_code (constEnv (Except.error "connection refused")) "print(1)" ⟨[], []⟩).1 =
      mkSystemError "connection refused" ∧
    (execute_python_code (constEnv (Except.error "connection refused")) "print(1)" ⟨[], []⟩).1.status = "error" ∧
    (execute_python_code (constEnv (Except.error "connection refused")) "print(1)" ⟨[], []⟩).1.error_type = some "system_error" ∧
    (execute_python_code (constEnv (Except.error "connection refused")) "print(1)" ⟨[], []⟩).1.error_message = some "connection refused" :=
  execute_python_code_no_raise (constEnv (Except.error "connection refused")) "print(1)"
    ⟨[], []⟩ "connection refused" (Or.inl rfl)

/-- C2: for every sandbox response with nonzero returncode, regardless of
stdout and files, the result is the `execution_error` dictionary carrying the
returncode and the trimmed stdout as error message, with no output fields set
(they are `none` in the returned literal), and the filesystem is untouched
except for the idempotent working-directory creation — no plot file is
written even if `.png` entries are present. -/
theorem execute_python_code_execution_error (env : Env) (code : String) (fs : FS)
    (resp : SandboxResponse)
    (hok : env.sandbox (requestPayload code (mainFilename env code)) = Except.ok resp)
    (hrc : resp.returncode ≠ 0) :
    execute_python_code env code fs =
      ({ status := "error", returncode := some resp.returncode,
         error_type := some "execution_error",
         error_message := some (pyStrip resp.stdout),
         details := some "Code execution encountered syntax error or runtime error" },
       fs.mkdirs env.tempDir) := by
  simp [execute_python_code, hok, hrc, baseResult]

theorem execute_python_code_execution_error_witness :
    execute_python_code
        (constEnv (Except.ok ⟨7, " boom \n", [⟨some "x.png", some "aGk="⟩]⟩)) "x" ⟨[], []⟩ =
      ({ status := "error", returncode := some 7,
         error_type := some "execution_error",
         error_message := some (pyStrip " boom \n"),
         details := some "Code execution encountered syntax error or runtime error" },
       FS.mkdirs ⟨[], []⟩ "temp") :=
  execute_python_code_execution_error
    (constEnv (Except.ok ⟨7, " boom \n", [⟨some "x.png", some "aGk="⟩]⟩)) "x" ⟨[], []⟩
    ⟨7, " boom \n", [⟨some "x.png", some "aGk="⟩]⟩ rfl (by decide)

/-- C9: for every input string, the payload sent to the sandbox is
exactly `{args: [filename], files: [{path: filename, content: c}]}` where
`filename` is the generated name and `c` is the base64 encoding of the UTF-8
bytes of the normalized source — the code dedented and then stripped — as
read back from the temporary file it was written to. -/
theorem requestPayload_spec (env : Env) (code : String) :
    requestPayload code (mainFilename env code) =
      { args := [mainFilename env code],
        files := [{ path := mainFilename env code,
                    content := b64encode (utf8Encode (pyStrip (pyDedent code))) }] } := by
  simp [requestPayload, FS.read, FS.write]

lemma lastPng_ne_nil (files : List SandboxFile) (g : SandboxFile)
    (h : lastPng files = some g) : files ≠ [] := by
  intro h0
  subst h0
  simp [lastPng] at h

/-- On the zero-returncode path with a successful image loop, the call
returns the loop's dictionary, plus the `"none"` marker exactly when both
stdout (trimmed) is empty and the file list is empty. -/
lemma execute_ok_eq (env : Env) (code : String) (fs : FS) (resp : SandboxResponse)
    (r' : ExecResult) (fs' : FS)
    (hok : env.sandbox (requestPayload code (mainFilename env code)) = Except.ok resp)
    (hrc : resp.returncode = 0)
    (heq : processFiles env resp.files 1 (textStage resp) (fs.mkdirs env.tempDir) =
      (Except.ok r', fs')) :
    execute_python_code env code fs =
      if pyStrip resp.stdout = "" ∧ resp.files = [] then
        ({ r' with
           output_type := some "none",
           details := some "Code executed successfully but produced no output" }, fs')
      else (r', fs') := by
  simp [execute_python_code, hok, hrc, heq]

/-- C3 counterexample: a sandbox response with returncode 0, empty
stdout and a non-empty file list containing no `.png` entry yields a success
result carrying NO `output_type` field at all — not one of the five declared
shapes, and differing from the `"none"`-tagged result produced at the same
triple (returncode 0, no stdout, no png) when the file list is empty. -/
theorem execute_output_type_missing_counterexample :
    (execute_python_code (constEnv (Except.ok ⟨0, "", [⟨some "data.txt", some "x"⟩]⟩))
       "x" ⟨[], []⟩).1.status = "success" ∧
    (execute_python_code (constEnv (Except.ok ⟨0, "", [⟨some "data.txt", some "x"⟩]⟩))
       "x" ⟨[], []⟩).1.returncode = some 0 ∧
    (execute_python_code (constEnv (Except.ok ⟨0, "", [⟨some "data.txt", some "x"⟩]⟩))
       "x" ⟨[], []⟩).1.output_type = none ∧
    (execute_python_code (constEnv (Except.ok ⟨0, "", []⟩)) "x" ⟨[], []⟩).1.output_type =
      some "none" := by
  decide

/-- C3 amended: on the zero-returncode path with a well-formed file
list, the result is tagged `"success"` and its `output_type` is `"plot"`
when a `.png` entry exists, `"text"` when there is no `.png` entry and the
trimmed stdout is non-empty, `"none"` when stdout is empty and the file list
is empty — but when stdout is empty and the file list is non-empty without
any `.png` entry, the success result carries no `output_type` field. -/
theorem execute_output_type_classification (env : Env) (code : String) (fs : FS)
    (ts : String) (resp : SandboxResponse)
    (hnow : ∀ j, env.now j = ts)
    (hok : env.sandbox (requestPayload code (mainFilename env code)) = Except.ok resp)
    (hrc : resp.returncode = 0)
    (hwf : ∀ f ∈ resp.files, wfFile f = true) :
    (execute_python_code env code fs).1.status = "success" ∧
    (lastPng resp.files ≠ none →
      (execute_python_code env code fs).1.output_type = some "plot") ∧
    (lastPng resp.files = none → pyStrip resp.stdout ≠ "" →
      (execute_python_code env code fs).1.output_type = some "text") ∧
    (lastPng resp.files = none → pyStrip resp.stdout = "" → resp.files = [] →
      (execute_python_code env code fs).1.output_type = some "none") ∧
    (lastPng resp.files = none → pyStrip resp.stdout = "" → resp.files ≠ [] →
      (execute_python_code env code fs).1.output_type = none) := by
  obtain ⟨r', fs', heq, hnone, hsome⟩ :=
    processFiles_ok env ts hnow resp.files hwf 1 (textStage resp) (fs.mkdirs env.tempDir)
  have hx := execute_ok_eq env code fs resp r' fs' hok hrc heq
  cases hl : lastPng resp.files with
  | some g =>
    have hne : resp.files ≠ [] := lastPng_ne_nil resp.files g hl
    obtain ⟨c, bs, _, _, hr', _⟩ := hsome g hl
    rw [if_neg (fun hand => hne hand.2)] at hx
    rw [hx, hr']
    refine ⟨?_, fun _ => rfl,
      fun h0 _ => Option.noConfusion h0,
      fun h0 _ _ => Option.noConfusion h0,
      fun h0 _ _ => Option.noConfusion h0⟩
    by_cases hs : pyStrip resp.stdout = "" <;> simp [textStage, baseResult, hrc, hs]
  | none =>
    obtain ⟨hr', hfs'⟩ := hnone hl
    subst hr'
    by_cases hs : pyStrip resp.stdout = ""
    · by_cases hf : resp.files = []
      · rw [if_pos ⟨hs, hf⟩] at hx
        rw [hx]
        refine ⟨?_, fun hcon => absurd rfl hcon, fun _ hcon => absurd hs hcon,
          fun _ _ _ => rfl, fun _ _ hcon => absurd hf hcon⟩
        simp [textStage, baseResult, hrc, hs]
      · rw [if_neg (fun hand => hf hand.2)] at hx
        rw [hx]
        refine ⟨?_, fun hcon => absurd rfl hcon, fun _ hcon => absurd hs hcon,
          fun _ _ hf0 => absurd hf0 hf, fun _ _ _ => ?_⟩
        · simp [textStage, baseResult, hrc, hs]
        · simp [textStage, baseResult, hs]
    · rw [if_neg (fun hand => hs hand.1)] at hx
      rw [hx]
      refine ⟨?_, fun hcon => absurd rfl hcon, fun _ _ => ?_,
        fun _ hs0 => absurd hs0 hs, fun _ hs0 => absurd hs0 hs⟩
      · simp [textStage, baseResult, hrc, hs]
      · simp [textStage, hs]

theorem execute_output_type_classification_witness :
    (execute_python_code (constEnv (Except.ok ⟨0, " hi ", [⟨some "a.png", some "aGk="⟩]⟩))
       "x" ⟨[], []⟩).1.status = "success" ∧
    (execute_python_code (constEnv (Except.ok ⟨0, " hi ", [⟨some "a.png", some "aGk="⟩]⟩))
       "x" ⟨[], []⟩).1.output_type = some "plot" := by
  have h := execute_output_type_classification
    (constEnv (Except.ok ⟨0, " hi ", [⟨some "a.png", some "aGk="⟩]⟩)) "x" ⟨[], []⟩
    "TS" ⟨0, " hi ", [⟨some "a.png", some "aGk="⟩]⟩ (fun _ => rfl) rfl rfl (by decide)
  exact ⟨h.1, h.2.1 (by decide)⟩

/-- Bridge: on the zero-returncode path with a well-formed file list whose
last `.png` entry is `g`, the call returns the text-stage dictionary with the
plot fields installed from `g`, and `g`'s decoded bytes on disk. -/
lemma execute_ok_plot (env : Env) (code : String) (fs : FS) (ts : String)
    (resp : SandboxResponse) (g : SandboxFile)
    (hnow : ∀ j, env.now j = ts)
    (hok : env.sandbox (requestPayload code (mainFilename env code)) = Except.ok resp)
    (hrc : resp.returncode = 0)
    (hwf : ∀ f ∈ resp.files, wfFile f = true)
    (hg : lastPng resp.files = some g) :
    ∃ c bs, g.content? = some c ∧ b64decode c = Except.ok bs ∧
      (execute_python_code env code fs).1 =
        { textStage resp with
          output_type := some "plot",
          plot_data := some c,
          plot_path := some (plotPath env ts),
          details := some "Code executed successfully and generated a plot" } ∧
      (execute_python_code env code fs).2.read (plotPath env ts) = some bs := by
  obtain ⟨r', fs', heq, _, hsome⟩ :=
    processFiles_ok env ts hnow resp.files hwf 1 (textStage resp) (fs.mkdirs env.tempDir)
  obtain ⟨c, bs, hc, hd, hr', hread⟩ := hsome g hg
  have hx := execute_ok_eq env code fs resp r' fs' hok hrc heq
  rw [if_neg (fun hand => lastPng_ne_nil resp.files g hg hand.2)] at hx
  exact ⟨c, bs, hc, hd, by rw [hx, hr'], by rw [hx]; exact hread⟩

/-- C4: the text and plot branches are independent, not mutually
exclusive: for a zero-returncode response with non-empty trimmed stdout and
at least one `.png` file, the result carries BOTH the stdout text and the
plot fields, and its final `output_type` is `"plot"` (the plot assignment
overwrites the `"text"` kind set earlier). -/
theorem execute_text_and_plot (env : Env) (code : String) (fs : FS) (ts : String)
    (resp : SandboxResponse) (g : SandboxFile)
    (hnow : ∀ j, env.now j = ts)
    (hok : env.sandbox (requestPayload code (mainFilename env code)) = Except.ok resp)
    (hrc : resp.returncode = 0)
    (hwf : ∀ f ∈ resp.files, wfFile f = true)
    (hstdout : pyStrip resp.stdout ≠ "")
    (hg : lastPng resp.files = some g) :
    (execute_python_code env code fs).1.stdout = some (pyStrip resp.stdout) ∧
    (execute_python_code env code fs).1.plot_data = g.content? ∧
    (execute_python_code env code fs).1.plot_path = some (plotPath env ts) ∧
    (execute_python_code env code fs).1.output_type = some "plot" := by
  obtain ⟨c, bs, hc, hd, hr, hread⟩ :=
    execute_ok_plot env code fs ts resp g hnow hok hrc hwf hg
  rw [hr]
  refine ⟨?_, ?_, rfl, rfl⟩
  · show (textStage resp).stdout = some (pyStrip resp.stdout)
    simp [textStage, hstdout]
  · exact hc.symm

theorem execute_text_and_plot_witness :
    (execute_python_code (constEnv (Except.ok ⟨0, " hi ", [⟨some "a.png", some "aGk="⟩]⟩))
       "x" ⟨[], []⟩).1.stdout = some (pyStrip " hi ") ∧
    (execute_python_code (constEnv (Except.ok ⟨0, " hi ", [⟨some "a.png", some "aGk="⟩]⟩))
       "x" ⟨[], []⟩).1.plot_data =
      (⟨some "a.png", some "aGk="⟩ : SandboxFile).content? ∧
    (execute_python_code (constEnv (Except.ok ⟨0, " hi ", [⟨some "a.png", some "aGk="⟩]⟩))
       "x" ⟨[], []⟩).1.plot_path =
      some (plotPath (constEnv (Except.ok ⟨0, " hi ", [⟨some "a.png", some "aGk="⟩]⟩)) "TS") ∧
    (execute_python_code (constEnv (Except.ok ⟨0, " hi ", [⟨some "a.png", some "aGk="⟩]⟩))
       "x" ⟨[], []⟩).1.output_type = some "plot" :=
  execute_text_and_plot (constEnv (Except.ok ⟨0, " hi ", [⟨some "a.png", some "aGk="⟩]⟩))
    "x" ⟨[], []⟩ "TS" ⟨0, " hi ", [⟨some "a.png", some "aGk="⟩]⟩ ⟨some "a.png", some "aGk="⟩
    (fun _ => rfl) rfl rfl (by decide) (by decide) (by decide)

/-- C5: round trip of plot content: when the last `.png` entry's content
is the base64 encoding of bytes `bs`, the result has `output_type` `"plot"`,
`plot_data` equal to that original base64 string, and `plot_path` naming a
file whose bytes equal the decoded content — equivalently, `plot_data` is
the base64 encoding of the bytes found at `plot_path`. -/
theorem execute_plot_roundtrip (env : Env) (code : String) (fs : FS) (ts : String)
    (resp : SandboxResponse) (g : SandboxFile) (bs : Bytes)
    (hnow : ∀ j, env.now j = ts)
    (hok : env.sandbox (requestPayload code (mainFilename env code)) = Except.ok resp)
    (hrc : resp.returncode = 0)
    (hwf : ∀ f ∈ resp.files, wfFile f = true)
    (hg : lastPng resp.files = some g)
    (hcontent : g.content? = some (b64encode bs))
    (hbytes : ∀ x ∈ bs, x < 256) :
    (execute_python_code env code fs).1.output_type = some "plot" ∧
    (execute_python_code env code fs).1.plot_data = some (b64encode bs) ∧
    (execute_python_code env code fs).1.plot_path = some (plotPath env ts) ∧
    (execute_python_code env code fs).2.read (plotPath env ts) = some bs ∧
    ∃ bs', (execute_python_code env code fs).2.read (plotPath env ts) = some bs' ∧
      (execute_python_code env code fs).1.plot_data = some (b64encode bs') := by
  obtain ⟨c, bs0, hc, hd, hr, hread⟩ :=
    execute_ok_plot env code fs ts resp g hnow hok hrc hwf hg
  obtain rfl : c = b64encode bs := by
    rw [hcontent] at hc
    exact (Option.some.inj hc).symm
  obtain rfl : bs0 = bs := by
    rw [b64decode_encode bs hbytes] at hd
    exact (Except.ok.inj hd).symm
  exact ⟨by rw [hr], by rw [hr], by rw [hr], hread, bs0, hread, by rw [hr]⟩

theorem execute_plot_roundtrip_witness :
    (execute_python_code (constEnv (Except.ok ⟨0, "", [⟨some "a.png", some "aGk="⟩]⟩))
       "x" ⟨[], []⟩).1.output_type = some "plot" ∧
    (execute_python_code (constEnv (Except.ok ⟨0, "", [⟨some "a.png", some "aGk="⟩]⟩))
       "x" ⟨[], []⟩).1.plot_data = some (b64encode [104, 105]) ∧
    (execute_python_code (constEnv (Except.ok ⟨0, "", [⟨some "a.png", some "aGk="⟩]⟩))
       "x" ⟨[], []⟩).1.plot_path =
      some (plotPath (constEnv (Except.ok ⟨0, "", [⟨some "a.png", some "aGk="⟩]⟩)) "TS") ∧
    (execute_python_code (constEnv (Except.ok ⟨0, "", [⟨some "a.png", some "aGk="⟩]⟩))
       "x" ⟨[], []⟩).2.read
        (plotPath (constEnv (Except.ok ⟨0, "", [⟨some "a.png", some "aGk="⟩]⟩)) "TS") =
      some [104, 105] ∧
    ∃ bs', (execute_python_code (constEnv (Except.ok ⟨0, "", [⟨some "a.png", some "aGk="⟩]⟩))
       "x" ⟨[], []⟩).2.read
        (plotPath (constEnv (Except.ok ⟨0, "", [⟨some "a.png", some "aGk="⟩]⟩)) "TS") =
      some bs' ∧
      (execute_python_code (constEnv (Except.ok ⟨0, "", [⟨some "a.png", some "aGk="⟩]⟩))
       "x" ⟨[], []⟩).1.plot_data = some (b64encode bs') :=
  execute_plot_roundtrip (constEnv (Except.ok ⟨0, "", [⟨some "a.png", some "aGk="⟩]⟩))
    "x" ⟨[], []⟩ "TS" ⟨0, "", [⟨some "a.png", some "aGk="⟩]⟩ ⟨some "a.png", some "aGk="⟩
    [104, 105] (fun _ => rfl) rfl rfl (by decide) (by decide) (by decide) (by decide)

/-- C6: when a zero-returncode response lists several `.png` files, the
plot fields of the result (`plot_data`, `plot_path`, `output_type`) come
from the LAST such entry in iteration order — last write wins on the shared
output fields, including the bytes finally on disk at the generated path. -/
theorem execute_lastpng_wins (env : Env) (code : String) (fs : FS) (ts : String)
    (resp : SandboxResponse) (g : SandboxFile)
    (hnow : ∀ j, env.now j = ts)
    (hok : env.sandbox (requestPayload code (mainFilename env code)) = Except.ok resp)
    (hrc : resp.returncode = 0)
    (hwf : ∀ f ∈ resp.files, wfFile f = true)
    (hg : lastPng resp.files = some g) :
    ∃ c bs, g.content? = some c ∧ b64decode c = Except.ok bs ∧
      (execute_python_code env code fs).1.output_type = some "plot" ∧
      (execute_python_code env code fs).1.plot_data = some c ∧
      (execute_python_code env code fs).1.plot_path = some (plotPath env ts) ∧
      (execute_python_code env code fs).2.read (plotPath env ts) = some bs := by
  obtain ⟨c, bs, hc, hd, hr, hread⟩ :=
    execute_ok_plot env code fs ts resp g hnow hok hrc hwf hg
  exact ⟨c, bs, hc, hd, by rw [hr], by rw [hr], by rw [hr], hread⟩

theorem execute_lastpng_wins_witness :
    ∃ c bs,
      (⟨some "b.png", some "aA=="⟩ : SandboxFile).content? = some c ∧
      b64decode c = Except.ok bs ∧
      (execute_python_code
         (constEnv (Except.ok ⟨0, "", [⟨some "a.png", some "aGk="⟩, ⟨some "b.png", some "aA=="⟩]⟩))
         "x" ⟨[], []⟩).1.output_type = some "plot" ∧
      (execute_python_code
         (constEnv (Except.ok ⟨0, "", [⟨some "a.png", some "aGk="⟩, ⟨some "b.png", some "aA=="⟩]⟩))
         "x" ⟨[], []⟩).1.plot_data = some c ∧
      (execute_python_code
         (constEnv (Except.ok ⟨0, "", [⟨some "a.png", some "aGk="⟩, ⟨some "b.png", some "aA=="⟩]⟩))
         "x" ⟨[], []⟩).1.plot_path =
        some (plotPath
          (constEnv (Except.ok ⟨0, "", [⟨some "a.png", some "aGk="⟩, ⟨some "b.png", some "aA=="⟩]⟩))
          "TS") ∧
      (execute_python_code
         (constEnv (Except.ok ⟨0, "", [⟨some "a.png", some "aGk="⟩, ⟨some "b.png", some "aA=="⟩]⟩))
         "x" ⟨[], []⟩).2.read
          (plotPath
            (constEnv (Except.ok ⟨0, "", [⟨some "a.png", some "aGk="⟩, ⟨some "b.png", some "aA=="⟩]⟩))
            "TS") = some bs :=
  execute_lastpng_wins
    (constEnv (Except.ok ⟨0, "", [⟨some "a.png", some "aGk="⟩, ⟨some "b.png", some "aA=="⟩]⟩))
    "x" ⟨[], []⟩ "TS" ⟨0, "", [⟨some "a.png", some "aGk="⟩, ⟨some "b.png", some "aA=="⟩]⟩
    ⟨some "b.png", some "aA=="⟩ (fun _ => rfl) rfl rfl (by decide) (by decide)

lemma md5hexChars_length (bs : Bytes) : (md5hexChars bs).length = 32 := by
  simp [md5hexChars, wordLEBytes, byteHex]

/-- C7 counterexample: two calls in the same second (same timestamp
string) with DIFFERENT source content can receive the SAME generated
filename: the name only contains the first 8 hex characters of the MD5
digest, and `"c5373"` and `"c45389"` collide on that truncated digest
(both hash to `f5c8b142…`), so the no-collision claim fails. -/
theorem get_unique_filename_collision :
    ("c5373" : String) ≠ "c45389" ∧
    get_unique_filename "c5373" "" ".py" "20240101_120000" =
      get_unique_filename "c45389" "" ".py" "20240101_120000" := by
  constructor
  · decide
  · set_option maxRecDepth 10000 in decide

/-- C7 amended: the naming scheme is deterministic — the name is a pure
function of content and timestamp — and two calls with the same timestamp
collide ONLY when the truncated (8 hex character) MD5 digests of their
contents coincide: whenever the truncated digests differ, the generated
filenames differ, for any shared prefix/suffix/timestamp. -/
theorem get_unique_filename_hash_ne (c1 c2 pfx suffix ts : String)
    (h : (md5hexChars (utf8Encode c1)).take 8 ≠ (md5hexChars (utf8Encode c2)).take 8) :
    get_unique_filename c1 pfx suffix ts ≠ get_unique_filename c2 pfx suffix ts := by
  intro he
  apply h
  have hd := congrArg String.data he
  simp only [get_unique_filename, String.data_append, List.append_assoc] at hd
  have hd2 := List.append_cancel_left hd
  exact List.append_inj_left hd2 (by
    simp [List.length_take, md5hexChars_length])

theorem get_unique_filename_hash_ne_witness :
    (md5hexChars (utf8Encode "a")).take 8 ≠ (md5hexChars (utf8Encode "b")).take 8 ∧
    get_unique_filename "a" "" ".py" "TS" ≠ get_unique_filename "b" "" ".py" "TS" :=
  ⟨by set_option maxRecDepth 10000 in decide,
   get_unique_filename_hash_ne "a" "b" "" ".py" "TS" (by set_option maxRecDepth 10000 in decide)⟩

/-- C8: per-call side effects are bounded.  Under a constant clock (one
second granularity, sub-second call), every invocation (i) only adds the
working directory to the directory set, idempotently — it is present
afterwards, and creating it again is a no-op; and (ii) changes the contents
of no file other than (possibly) the single generated plot path — for every
input and every sandbox outcome, including responses listing several `.png`
files, which are all written to that same path. -/
theorem execute_side_effects (env : Env) (code : String) (fs : FS) (ts : String)
    (hnow : ∀ j, env.now j = ts) :
    (execute_python_code env code fs).2.dirs = (fs.mkdirs env.tempDir).dirs ∧
    (fs.mkdirs env.tempDir).mkdirs env.tempDir = fs.mkdirs env.tempDir ∧
    env.tempDir ∈ (execute_python_code env code fs).2.dirs ∧
    ∀ q, q ≠ plotPath env ts → (execute_python_code env code fs).2.read q = fs.read q := by
  have hidem := FS.mkdirs_idem fs env.tempDir
  cases hs : env.sandbox (requestPayload code (mainFilename env code)) with
  | error e =>
    have h2 : (execute_python_code env code fs).2 = fs.mkdirs env.tempDir := by
      simp [execute_python_code, hs]
    rw [h2]
    exact ⟨rfl, hidem, FS.mkdirs_mem fs env.tempDir,
      fun q _ => FS.mkdirs_read fs env.tempDir q⟩
  | ok resp =>
    by_cases hrc : resp.returncode = 0
    · rcases hpf : processFiles env resp.files 1 (textStage resp) (fs.mkdirs env.tempDir)
        with ⟨res, fs2⟩
      have hfr := processFiles_frame env ts hnow resp.files 1 (textStage resp)
        (fs.mkdirs env.tempDir)
      rw [hpf] at hfr
      have h2 : (execute_python_code env code fs).2 = fs2 := by
        cases res with
        | error e =>
          simp [execute_python_code, hs, hrc, hpf]
        | ok r2 =>
          simp only [execute_python_code, hs, hpf]
          rw [if_neg (by simp [hrc])]
          split <;> rfl
      rw [h2]
      refine ⟨hfr.1, hidem, ?_, fun q hq => ?_⟩
      · have : fs2.dirs = (fs.mkdirs env.tempDir).dirs := hfr.1
        rw [this]
        exact FS.mkdirs_mem fs env.tempDir
      · rw [hfr.2 q hq, FS.mkdirs_read]
    · have h2 : (execute_python_code env code fs).2 = fs.mkdirs env.tempDir := by
        simp [execute_python_code, hs, hrc]
      rw [h2]
      exact ⟨rfl, hidem, FS.mkdirs_mem fs env.tempDir,
        fun q _ => FS.mkdirs_read fs env.tempDir q⟩

theorem execute_side_effects_witness :
    (execute_python_code (constEnv (Except.ok ⟨0, "", [⟨some "a.png", some "aGk="⟩]⟩))
       "x" ⟨[], []⟩).2.dirs = (FS.mkdirs ⟨[], []⟩ "temp").dirs ∧
    (FS.mkdirs ⟨[], []⟩ "temp").mkdirs "temp" = FS.mkdirs ⟨[], []⟩ "temp" ∧
    "temp" ∈ (execute_python_code (constEnv (Except.ok ⟨0, "", [⟨some "a.png", some "aGk="⟩]⟩))
       "x" ⟨[], []⟩).2.dirs ∧
    (execute_python_code (constEnv (Except.ok ⟨0, "", [⟨some "a.png", some "aGk="⟩]⟩))
       "x" ⟨[], []⟩).2.read "other.txt" = (⟨[], []⟩ : FS).read "other.txt" := by
  have h := execute_side_effects (constEnv (Except.ok ⟨0, "", [⟨some "a.png", some "aGk="⟩]⟩))
    "x" ⟨[], []⟩ "TS" (fun _ => rfl)
  exact ⟨h.1, h.2.1, h.2.2.1,
    h.2.2.2 "other.txt" (by set_option maxRecDepth 10000 in decide)⟩

/-- C10: if a zero-returncode response contains a malformed file entry —
missing the `path` key, or a `.png` entry whose `content` is missing or
fails base64 decoding — after a prefix of well-formed entries, the call
returns a `system_error` result even though the sandboxed program itself
succeeded; and if the well-formed prefix contained a `.png` entry, the
generated plot path still holds a file when the error result is returned
(the error is not atomic with respect to the writes already performed). -/
theorem execute_malformed_entry (env : Env) (code : String) (fs : FS) (ts : String)
    (resp : SandboxResponse) (good : List SandboxFile) (bad : SandboxFile)
    (rest : List SandboxFile)
    (hnow : ∀ j, env.now j = ts)
    (hok : env.sandbox (requestPayload code (mainFilename env code)) = Except.ok resp)
    (hrc : resp.returncode = 0)
    (hfiles : resp.files = good ++ bad :: rest)
    (hgood : ∀ f ∈ good, wfFile f = true)
    (hbad : wfFile bad = false) :
    ∃ e, (execute_python_code env code fs).1 = mkSystemError e ∧
      (lastPng good ≠ none →
        ∃ bs, (execute_python_code env code fs).2.read (plotPath env ts) = some bs) := by
  obtain ⟨e, fs', heq, _, himpl⟩ :=
    processFiles_err env ts hnow good hgood bad hbad rest 1 (textStage resp)
      (fs.mkdirs env.tempDir)
  rw [← hfiles] at heq
  have hx : execute_python_code env code fs = (mkSystemError e, fs') := by
    simp [execute_python_code, hok, hrc, heq]
  exact ⟨e, by rw [hx], fun h0 => by rw [hx]; exact himpl h0⟩

theorem execute_malformed_entry_witness :
    ∃ e, (execute_python_code
        (constEnv (Except.ok ⟨0, "", [⟨some "a.png", some "aGk="⟩, ⟨none, some "x"⟩]⟩))
        "x" ⟨[], []⟩).1 = mkSystemError e ∧
      ∃ bs, (execute_python_code
        (constEnv (Except.ok ⟨0, "", [⟨some "a.png", some "aGk="⟩, ⟨none, some "x"⟩]⟩))
        "x" ⟨[], []⟩).2.read
          (plotPath (constEnv (Except.ok ⟨0, "", [⟨some "a.png", some "aGk="⟩, ⟨none, some "x"⟩]⟩))
            "TS") = some bs := by
  obtain ⟨e, h1, h2⟩ := execute_malformed_entry
    (constEnv (Except.ok ⟨0, "", [⟨some "a.png", some "aGk="⟩, ⟨none, some "x"⟩]⟩))
    "x" ⟨[], []⟩ "TS" ⟨0, "", [⟨some "a.png", some "aGk="⟩, ⟨none, some "x"⟩]⟩
    [⟨some "a.png", some "aGk="⟩] ⟨none, some "x"⟩ []
    (fun _ => rfl) rfl rfl rfl (by decide) (by decide)
  exact ⟨e, h1, h2 (by decide)⟩
